import Mathlib

/-!
Shallow embedding of the turn-state tracking and reminder-scheduling core of
`function_app.py` (PYDT → Discord bot).

Conventions of the embedding:
* An instant of time is modelled as an `Int`, the number of seconds since the
  epoch.  `datetime.now(timezone.utc)` becomes an explicit `now : Int`
  parameter; `a - b` in seconds matches `(a - b).total_seconds()`.
* A timestamp *string* is modelled by `TsStr`: it is either the empty string,
  a non-empty string that `datetime.fromisoformat` rejects (`malformed`), or a
  non-empty string that parses to the instant `t` (`valid t`).  Python
  truthiness of the string is `TsStr.toBool`; `now.isoformat()` stored into a
  field is `TsStr.valid now`.
* Hours are rationals: `(now - t).total_seconds() / 3600` becomes
  `((now - t : Int) : Rat) / 3600`.
* The Azure-table store is externalised: a read is an `Option` parameter, a
  write is returned as data.  Exceptions that the Python code catches are
  modelled as explicit outcome constructors.
-/

namespace Pydt

/-- A timestamp string as used by the code: empty, non-empty but unparseable
by `datetime.fromisoformat`, or parseable to the instant `t` (seconds). -/
inductive TsStr where
  | empty : TsStr
  | malformed : TsStr
  | valid : Int → TsStr
deriving DecidableEq, Repr

/-- Python truthiness of the timestamp string (`if turn_started_at:`). -/
def TsStr.toBool : TsStr → Bool
  | .empty => false
  | .malformed => true
  | .valid _ => true

/-- Result of `datetime.fromisoformat(s.replace('Z', '+00:00'))`: `some t` on
success, `none` when the call raises `ValueError`/`TypeError`. -/
def TsStr.fromiso : TsStr → Option Int
  | .valid t => some t
  | .empty => none
  | .malformed => none

/-- Characters disallowed by Azure Table Storage
(`/ \ # ?` and control characters `\x00-\x1f`, `\x7f-\x9x`). -/
def isBadKeyChar (c : Char) : Bool :=
  c == '/' || c == '\\' || c == '#' || c == '?' ||
    c.toNat ≤ 0x1f || (0x7f ≤ c.toNat && c.toNat ≤ 0x9f)

/-- Model of `sanitize_key(value)`: replace disallowed characters with `_`, truncate to
1024 characters. -/
def sanitize_key (value : String) : String :=
  String.mk ((value.data.map (fun c => if isBadKeyChar c then '_' else c)).take 1024)

/-- The `blackout` section of `config.json`. -/
structure Blackout where
  enabled : Bool
  startHour : Int
  endHour : Int
  gmtOffset : Int
deriving DecidableEq, Repr

/-- The process configuration (`CONFIG`). -/
structure Config where
  blackout : Blackout
  reminderThresholdHours : Rat
deriving DecidableEq, Repr

/-- The calendar hour (0–23) of an instant given in seconds: floor-divide by
3600 and take the remainder mod 24, the arithmetic `datetime.hour` performs. -/
def hourOfInstant (t : Int) : Int :=
  Int.emod (Int.fdiv t 3600) 24

/-- Model of `is_blackout_period()`: `False` when disabled; otherwise test whether the
hour of `utc_now + timedelta(hours=gmt_offset)` lies in the configured window,
wrapping past midnight when `start_hour > end_hour`. -/
def is_blackout_period (cfg : Config) (utcNow : Int) : Bool :=
  if !cfg.blackout.enabled then false
  else
    let current_hour := hourOfInstant (utcNow + cfg.blackout.gmtOffset * 3600)
    if cfg.blackout.startHour ≤ cfg.blackout.endHour then
      decide (cfg.blackout.startHour ≤ current_hour ∧ current_hour < cfg.blackout.endHour)
    else
      decide (current_hour ≥ cfg.blackout.startHour ∨ current_hour < cfg.blackout.endHour)

/-- A Current-Turn Record: one entity of the `activegames` table
(PartitionKey is the constant `"activegames"`). -/
structure TurnRecord where
  rowKey : String
  gameName : String
  gameId : String
  steamUsername : String
  discordUserId : String
  roundNumber : String
  turnStartedAt : TsStr
  lastReminderAt : TsStr
  reminderCount : Int
deriving DecidableEq, Repr

/-- A Turn-History Record: one entity of the `turnhistory` table. -/
structure HistoryRecord where
  partitionKey : String
  rowKey : String
  gameName : String
  gameId : String
  steamUsername : String
  roundNumber : String
  turnStartedAt : TsStr
  turnCompletedAt : TsStr
  durationSeconds : Int
deriving DecidableEq, Repr

/-- Model of `record_turn_completion(...)`: build the history entity that the function
upserts.  `duration_seconds` is `int((now - start_time).total_seconds())` when
the stored start is non-empty and parses, and `-1` (unknown) when it is empty
or the parse raises. -/
def record_turn_completion (now : Int) (game_id game_name previous_player previous_round : String)
    (turn_started_at : TsStr) : HistoryRecord :=
  let duration_seconds : Int :=
    if turn_started_at.toBool then
      match turn_started_at.fromiso with
      | some start_time => now - start_time
      | none => -1
    else -1
  { partitionKey := sanitize_key (if game_id ≠ "" then game_id else game_name)
    rowKey := sanitize_key (previous_round ++ "_" ++ previous_player)
    gameName := game_name
    gameId := game_id
    steamUsername := previous_player
    roundNumber := previous_round
    turnStartedAt := turn_started_at
    turnCompletedAt := TsStr.valid now
    durationSeconds := duration_seconds }

/-- Result of one `update_turn_tracking` invocation: the history entity
upserted into `turnhistory` (if any) and the new `activegames` entity. -/
structure TrackResult where
  history : Option HistoryRecord
  newRecord : TurnRecord
deriving DecidableEq, Repr

/-- Model of `update_turn_tracking(game_name, game_id, steam_username, discord_user_id,
round_num)` given the store's answer `existing` for the derived row key.
History is emitted only when an existing record was found whose
`steamUsername` is truthy and whose `(steamUsername, roundNumber)` differs
from `(steam_username, str(round_num))`; the new current-turn entity is then
upserted unconditionally. -/
def update_turn_tracking (now : Int) (game_name game_id steam_username : String)
    (discord_user_id : Option String) (round_num : Int)
    (existing : Option TurnRecord) : TrackResult :=
  let row_key := sanitize_key (if game_id ≠ "" then game_id else game_name)
  let history : Option HistoryRecord :=
    match existing with
    | some ex =>
        if ex.steamUsername ≠ "" ∧
            (ex.steamUsername ≠ steam_username ∨ ex.roundNumber ≠ toString round_num) then
          some (record_turn_completion now game_id game_name
            ex.steamUsername ex.roundNumber ex.turnStartedAt)
        else none
    | none => none
  { history := history
    newRecord :=
      { rowKey := row_key
        gameName := game_name
        gameId := game_id
        steamUsername := steam_username
        discordUserId := discord_user_id.getD ""
        roundNumber := toString round_num
        turnStartedAt := TsStr.valid now
        lastReminderAt := TsStr.empty
        reminderCount := 0 } }

/-- Who the reminder message is addressed to: a Discord mention
(`<@id> - Reminder #...`) or the `@everyone` fallback naming the raw Steam
player (`**{steam_username}**'s turn ...`). -/
inductive MessageTarget where
  | mention : String → MessageTarget
  | broadcast : String → MessageTarget
deriving DecidableEq, Repr

/-- Lines 469–477 of `send_turn_reminders`: if the stored `discordUserId` is
truthy, mention it; otherwise retry the user-mapping lookup
(`user_mapping.get(steam_username, "")`) and mention the result when truthy,
else fall back to the `@everyone` broadcast naming the raw player. -/
def dispatch_target (user_mapping : String → Option String) (e : TurnRecord) : MessageTarget :=
  if e.discordUserId ≠ "" then MessageTarget.mention e.discordUserId
  else
    let fresh := (user_mapping e.steamUsername).getD ""
    if fresh ≠ "" then MessageTarget.mention fresh
    else MessageTarget.broadcast e.steamUsername

/-- Outcome of `requests.post(discord_webhook_url, ...)`: an HTTP status code,
or a raised `requests.RequestException` (timeout included). -/
inductive SendResult where
  | status : Nat → SendResult
  | exn : SendResult
deriving DecidableEq, Repr

/-- Outcome of one iteration of the per-entity loop of `send_turn_reminders`.
`parseError` is the `datetime.fromisoformat` exception reaching the
per-record `except` handler; `sent t upd ok` means the POST returned 204 and
the updated entity `upd` was upserted (`ok = true`) or the upsert raised
(`ok = false`, also caught by the per-record handler). -/
inductive RecordOutcome where
  | parseError : RecordOutcome
  | skippedThreshold : RecordOutcome
  | skippedCooldown : RecordOutcome
  | sendExn : MessageTarget → RecordOutcome
  | sendFailed : MessageTarget → Nat → RecordOutcome
  | sent : MessageTarget → TurnRecord → Bool → RecordOutcome
deriving DecidableEq, Repr

/-- Lines 443–448: `hours_waiting` as an `Option` — `some 0` for an empty
`turnStartedAt`, `some ((now - start)/3600)` when it parses, `none` when
`fromisoformat` raises on a non-empty malformed string. -/
def hours_waiting_opt (now : Int) (ts : TsStr) : Option Rat :=
  if ts.toBool then (ts.fromiso).map (fun turn_start => ((now - turn_start : Int) : Rat) / 3600)
  else some 0

/-- Lines 456–463: the cooldown check as an `Option` — `some true` means
"skip, cooldown not elapsed", `some false` means "proceed", `none` means the
`fromisoformat` parse of a non-empty malformed `lastReminderAt` raised. -/
def cooldown_skip_opt (now : Int) (threshold : Rat) (lr : TsStr) : Option Bool :=
  if lr.toBool then
    (lr.fromiso).map
      (fun last_reminder => decide (((now - last_reminder : Int) : Rat) / 3600 < threshold))
  else some false

/-- One iteration of the per-entity loop of `send_turn_reminders`
(lines 434–496), for a single Current-Turn Record `entity`.  `send` is the
Discord POST outcome for this record and `upsert_ok` tells whether the store
upsert (if reached) succeeds. -/
def process_reminder_record (cfg : Config) (now : Int)
    (user_mapping : String → Option String) (send : SendResult) (upsert_ok : Bool)
    (entity : TurnRecord) : RecordOutcome :=
  match hours_waiting_opt now entity.turnStartedAt with
  | none => RecordOutcome.parseError
  | some hours_waiting =>
    if hours_waiting < cfg.reminderThresholdHours then RecordOutcome.skippedThreshold
    else
      match cooldown_skip_opt now cfg.reminderThresholdHours entity.lastReminderAt with
      | none => RecordOutcome.parseError
      | some true => RecordOutcome.skippedCooldown
      | some false =>
        let target := dispatch_target user_mapping entity
        match send with
        | SendResult.exn => RecordOutcome.sendExn target
        | SendResult.status code =>
          if code = 204 then
            RecordOutcome.sent target
              { entity with
                lastReminderAt := TsStr.valid now
                reminderCount := entity.reminderCount + 1 }
              upsert_ok
          else RecordOutcome.sendFailed target code

/-- Model of the `for entity in entities:` loop, recorded as the list of per-record
outcomes.  The index `i` selects each record's send/upsert fate from the
environment; the loop body never consults earlier outcomes (the Python loop
carries only the `reminders_sent` log counter). -/
def process_reminder_list (cfg : Config) (now : Int)
    (user_mapping : String → Option String) (sendOf : Nat → SendResult)
    (upsertOkOf : Nat → Bool) : Nat → List TurnRecord → List RecordOutcome
  | _, [] => []
  | i, e :: rest =>
    process_reminder_record cfg now user_mapping (sendOf i) (upsertOkOf i) e ::
      process_reminder_list cfg now user_mapping sendOf upsertOkOf (i + 1) rest

/-- Model of `send_turn_reminders(timer)`: return immediately (no outcomes at all)
during a blackout period, otherwise run the per-entity loop over the
enumeration of the `activegames` table. -/
def send_turn_reminders (cfg : Config) (now : Int)
    (user_mapping : String → Option String) (sendOf : Nat → SendResult)
    (upsertOkOf : Nat → Bool) (entities : List TurnRecord) : List RecordOutcome :=
  if is_blackout_period cfg now then []
  else process_reminder_list cfg now user_mapping sendOf upsertOkOf 0 entities

/-- The store write an outcome performs: only a successful upsert after an
acknowledged (204) send writes anything. -/
def storeWriteOf : RecordOutcome → Option TurnRecord
  | RecordOutcome.sent _ upd true => some upd
  | _ => none

/-- Whether the outcome dispatched (attempted the Discord POST). -/
def RecordOutcome.isDispatch : RecordOutcome → Bool
  | RecordOutcome.sendExn _ => true
  | RecordOutcome.sendFailed _ _ => true
  | RecordOutcome.sent _ _ _ => true
  | _ => false

/-- Whether the outcome is a failure while processing the record: a raised
parse error, a send exception, a non-204 response, or a failed upsert. -/
def RecordOutcome.isFailure : RecordOutcome → Bool
  | RecordOutcome.parseError => true
  | RecordOutcome.sendExn _ => true
  | RecordOutcome.sendFailed _ _ => true
  | RecordOutcome.sent _ _ ok => !ok
  | _ => false

/-- The target carried by a dispatch outcome, if any. -/
def RecordOutcome.targetOf : RecordOutcome → Option MessageTarget
  | RecordOutcome.sendExn t => some t
  | RecordOutcome.sendFailed t _ => some t
  | RecordOutcome.sent t _ _ => some t
  | _ => none

/-- One incoming turn-change event as `update_turn_tracking` receives it from
the webhook handler. -/
structure TurnEvent where
  now : Int
  game_name : String
  game_id : String
  steam_username : String
  discord_user_id : Option String
  round_num : Int
deriving DecidableEq, Repr

/-- Apply one turn-change event to the (single-game) store state: the new
current-turn entity is always upserted. -/
def applyEvent (st : Option TurnRecord) (e : TurnEvent) : Option TurnRecord :=
  some (update_turn_tracking e.now e.game_name e.game_id e.steam_username
    e.discord_user_id e.round_num st).newRecord

/-- Stated from the claim: hours-waiting is `(now − turn-start)` in hours,
taken as `0` when the turn-start timestamp is empty.  (The claim's formula
does not define the malformed case; the value `0` there is arbitrary and the
theorems only use this function away from `malformed`.) -/
def hours_waiting_spec (now : Int) : TsStr → Rat
  | TsStr.empty => 0
  | TsStr.malformed => 0
  | TsStr.valid t => ((now - t : Int) : Rat) / 3600

/-- Stated from the claim: a reminder is due when hours-waiting is at least
the threshold and the last-reminder timestamp is absent or at least the
threshold hours in the past. -/
def reminder_due_spec (cfg : Config) (now : Int) (e : TurnRecord) : Prop :=
  cfg.reminderThresholdHours ≤ hours_waiting_spec now e.turnStartedAt ∧
    (e.lastReminderAt = TsStr.empty ∨
      ∃ t, e.lastReminderAt = TsStr.valid t ∧
        cfg.reminderThresholdHours ≤ ((now - t : Int) : Rat) / 3600)

/-- Stated from the claim: the current local hour lies in the blackout
window — in `[startHour, endHour)` when `startHour ≤ endHour`, or in the
wrapped interval (`hour ≥ startHour` or `hour < endHour`) otherwise. -/
def spec_blackout_window (b : Blackout) (now : Int) : Prop :=
  (b.startHour ≤ b.endHour ∧
      b.startHour ≤ hourOfInstant (now + b.gmtOffset * 3600) ∧
      hourOfInstant (now + b.gmtOffset * 3600) < b.endHour) ∨
    (b.endHour < b.startHour ∧
      (hourOfInstant (now + b.gmtOffset * 3600) ≥ b.startHour ∨
        hourOfInstant (now + b.gmtOffset * 3600) < b.endHour))

/-- Claim C1: for every incoming turn-change event, a Turn-History Record is
emitted if and only if a Current-Turn Record for the derived game key already
existed whose `(player, round)` pair differs from the event's
`(player, stringified round)` pair.  The hypothesis `hwf` records that stored
current-turn records carry a non-empty player name, which holds for every
record the tracker itself writes (the webhook validator rejects empty
usernames). -/
theorem c1_history_iff_pair_changed (now : Int) (game_name game_id steam_username : String)
    (discord_user_id : Option String) (round_num : Int) (existing : Option TurnRecord)
    (hwf : ∀ r, existing = some r → r.steamUsername ≠ "") :
    (update_turn_tracking now game_name game_id steam_username discord_user_id round_num
        existing).history.isSome = true ↔
      ∃ r, existing = some r ∧
        ¬(r.steamUsername = steam_username ∧ r.roundNumber = toString round_num) := by
  cases existing with
  | none => simp [update_turn_tracking]
  | some r =>
    have hr : ¬r.steamUsername = "" := hwf r rfl
    simp only [update_turn_tracking, Option.some.injEq]
    by_cases hd : r.steamUsername = steam_username ∧ r.roundNumber = toString round_num
    · simp [hd.1, hd.2]
    · rw [if_pos ⟨hr, by tauto⟩]
      simp only [Option.isSome_some, true_iff]
      exact ⟨r, rfl, hd⟩

/-- Witness for C1 at a concrete event: a prior record for `bob`/round 1
exists, the event is `carol`/round 2, so a history record is emitted. -/
theorem c1_history_iff_pair_changed_witness :
    (update_turn_tracking 100 "Alpha" "" "carol" none 2
        (some ⟨"Alpha", "Alpha", "", "bob", "", "1", TsStr.valid 0, TsStr.empty, 0⟩)).history.isSome
        = true ↔
      ∃ r, (some (⟨"Alpha", "Alpha", "", "bob", "", "1", TsStr.valid 0, TsStr.empty, 0⟩ :
          TurnRecord)) = some r ∧
        ¬(r.steamUsername = "carol" ∧ r.roundNumber = toString (2 : Int)) :=
  c1_history_iff_pair_changed 100 "Alpha" "" "carol" none 2 _
    (by intro r h; injection h with h2; subst h2; decide)

/-- Claim C2: the Turn Tracker always upserts the Current-Turn Record with
exactly the event's player, the mapped chat identity (empty string when
absent), the stringified round, turn-start = now, empty last-reminder, and
reminder count 0 — regardless of the prior state; hence after any sequence of
events on one game the record reflects exactly the last event. -/
theorem c2_upsert_reflects_last_event (now : Int) (game_name game_id steam_username : String)
    (discord_user_id : Option String) (round_num : Int) (existing : Option TurnRecord) :
    ((update_turn_tracking now game_name game_id steam_username discord_user_id round_num
        existing).newRecord =
      { rowKey := sanitize_key (if game_id ≠ "" then game_id else game_name)
        gameName := game_name
        gameId := game_id
        steamUsername := steam_username
        discordUserId := discord_user_id.getD ""
        roundNumber := toString round_num
        turnStartedAt := TsStr.valid now
        lastReminderAt := TsStr.empty
        reminderCount := 0 }) ∧
    ∀ (st : Option TurnRecord) (es : List TurnEvent) (e : TurnEvent),
      List.foldl applyEvent st (es ++ [e]) = applyEvent none e := by
  refine ⟨rfl, ?_⟩
  intro st es e
  rw [List.foldl_append]
  rfl

/-- Claim C5: `durationSeconds` of a closed turn is the whole-second
difference `now − start` when the stored start timestamp is non-empty and
parseable, and the sentinel `-1` when it is empty or fails to parse. -/
theorem c5_duration_formula (now : Int) (game_id game_name previous_player previous_round : String)
    (ts : TsStr) :
    (∀ t, ts = TsStr.valid t →
      (record_turn_completion now game_id game_name previous_player previous_round
        ts).durationSeconds = now - t) ∧
    ((ts = TsStr.empty ∨ ts = TsStr.malformed) →
      (record_turn_completion now game_id game_name previous_player previous_round
        ts).durationSeconds = -1) := by
  constructor
  · rintro t rfl; rfl
  · rintro (rfl | rfl) <;> rfl

/-- Witness for C5: a turn started at 40 and completed at 100 is recorded
with duration 60; an empty start timestamp is recorded with the sentinel. -/
theorem c5_duration_formula_witness :
    (record_turn_completion 100 "" "Alpha" "bob" "1" (TsStr.valid 40)).durationSeconds
        = 100 - 40 ∧
    (record_turn_completion 100 "" "Alpha" "bob" "1" TsStr.empty).durationSeconds = -1 :=
  ⟨(c5_duration_formula 100 "" "Alpha" "bob" "1" (TsStr.valid 40)).1 40 rfl,
   (c5_duration_formula 100 "" "Alpha" "bob" "1" TsStr.empty).2 (Or.inl rfl)⟩

/-- Claim C6: every history record's `durationSeconds` is either nonnegative
or the single sentinel `-1`, given that the completion instant is not earlier
than any parseable stored start instant (the stored start was written as
`now` of an earlier invocation). -/
theorem c6_duration_nonneg_or_sentinel (now : Int)
    (game_id game_name previous_player previous_round : String) (ts : TsStr)
    (hmono : ∀ t, ts = TsStr.valid t → t ≤ now) :
    0 ≤ (record_turn_completion now game_id game_name previous_player previous_round
        ts).durationSeconds ∨
      (record_turn_completion now game_id game_name previous_player previous_round
        ts).durationSeconds = -1 := by
  cases ts with
  | empty => exact Or.inr rfl
  | malformed => exact Or.inr rfl
  | valid t =>
    left
    have ht := hmono t rfl
    show (0 : Int) ≤ now - t
    omega

/-- Witness for C6: completion at 100 of a turn started at 40 yields a
nonnegative duration. -/
theorem c6_duration_nonneg_or_sentinel_witness :
    0 ≤ (record_turn_completion 100 "" "Alpha" "bob" "1" (TsStr.valid 40)).durationSeconds ∨
      (record_turn_completion 100 "" "Alpha" "bob" "1" (TsStr.valid 40)).durationSeconds = -1 :=
  c6_duration_nonneg_or_sentinel 100 "" "Alpha" "bob" "1" (TsStr.valid 40)
    (by intro t h; injection h with h2; omega)

/-- Helper: whatever the Discord POST returns, the branch of the loop that
reaches the send is a dispatch outcome. -/
theorem isDispatch_send_branch (t : MessageTarget) (upd : TurnRecord) (ok : Bool)
    (send : SendResult) :
    (match send with
      | SendResult.exn => RecordOutcome.sendExn t
      | SendResult.status code =>
        if code = 204 then RecordOutcome.sent t upd ok
        else RecordOutcome.sendFailed t code).isDispatch = true := by
  cases send with
  | exn => rfl
  | status code =>
    by_cases h : code = 204 <;> simp [h, RecordOutcome.isDispatch]

/-- Helper: outcomes that are not dispatches write nothing to the store. -/
theorem storeWriteOf_eq_none_of_not_dispatch (o : RecordOutcome)
    (h : o.isDispatch = false) : storeWriteOf o = none := by
  cases o <;> simp_all [RecordOutcome.isDispatch, storeWriteOf]

/-- Claim C3: outside the blackout window, a record's reminder is dispatched
iff hours-waiting (0 for an empty start timestamp) is at least the threshold
and the last reminder is absent or at least the threshold hours old;
otherwise the record is skipped with no store write.  The hypotheses restrict
to records whose stored timestamps are empty or parseable, which is what the
claim's arithmetic presupposes (and what the tracker writes). -/
theorem c3_dispatch_iff_due (cfg : Config) (now : Int)
    (user_mapping : String → Option String) (send : SendResult) (upsert_ok : Bool)
    (e : TurnRecord) (hts : e.turnStartedAt ≠ TsStr.malformed)
    (hlr : e.lastReminderAt ≠ TsStr.malformed) :
    ((process_reminder_record cfg now user_mapping send upsert_ok e).isDispatch = true ↔
      reminder_due_spec cfg now e) ∧
    ((process_reminder_record cfg now user_mapping send upsert_ok e).isDispatch = false →
      storeWriteOf (process_reminder_record cfg now user_mapping send upsert_ok e) = none) := by
  refine ⟨?_, storeWriteOf_eq_none_of_not_dispatch _⟩
  cases hts' : e.turnStartedAt with
  | malformed => exact absurd hts' hts
  | empty =>
    cases hlr' : e.lastReminderAt with
    | malformed => exact absurd hlr' hlr
    | empty =>
      by_cases h1 : (0 : Rat) < cfg.reminderThresholdHours
      · simp [process_reminder_record, hours_waiting_opt, cooldown_skip_opt, TsStr.toBool,
          TsStr.fromiso, reminder_due_spec, hours_waiting_spec, hts', hlr', h1,
          RecordOutcome.isDispatch, not_le.mpr h1]
      · cases send with
        | exn =>
          simp [process_reminder_record, hours_waiting_opt, cooldown_skip_opt, TsStr.toBool,
            TsStr.fromiso, reminder_due_spec, hours_waiting_spec, hts', hlr', h1,
            RecordOutcome.isDispatch, not_lt.mp h1]
        | status code =>
          by_cases hc : code = 204 <;>
            simp [process_reminder_record, hours_waiting_opt, cooldown_skip_opt, TsStr.toBool,
              TsStr.fromiso, reminder_due_spec, hours_waiting_spec, hts', hlr', h1, hc,
              RecordOutcome.isDispatch, not_lt.mp h1]
    | valid s =>
      by_cases h1 : (0 : Rat) < cfg.reminderThresholdHours
      · simp [process_reminder_record, hours_waiting_opt, cooldown_skip_opt, TsStr.toBool,
          TsStr.fromiso, reminder_due_spec, hours_waiting_spec, hts', hlr', h1,
          RecordOutcome.isDispatch, not_le.mpr h1]
      · by_cases h2 : ((now : Rat) - (s : Rat)) / 3600 < cfg.reminderThresholdHours
        · simp [process_reminder_record, hours_waiting_opt, cooldown_skip_opt, TsStr.toBool,
            TsStr.fromiso, reminder_due_spec, hours_waiting_spec, hts', hlr', h1, h2,
            RecordOutcome.isDispatch, not_le.mpr h2]
        · cases send with
          | exn =>
            simp [process_reminder_record, hours_waiting_opt, cooldown_skip_opt, TsStr.toBool,
              TsStr.fromiso, reminder_due_spec, hours_waiting_spec, hts', hlr', h1, h2,
              RecordOutcome.isDispatch, not_lt.mp h1, not_lt.mp h2]
          | status code =>
            by_cases hc : code = 204 <;>
              simp [process_reminder_record, hours_waiting_opt, cooldown_skip_opt, TsStr.toBool,
                TsStr.fromiso, reminder_due_spec, hours_waiting_spec, hts', hlr', h1, h2, hc,
                RecordOutcome.isDispatch, not_lt.mp h1, not_lt.mp h2]
  | valid t =>
    cases hlr' : e.lastReminderAt with
    | malformed => exact absurd hlr' hlr
    | empty =>
      by_cases h1 : ((now : Rat) - (t : Rat)) / 3600 < cfg.reminderThresholdHours
      · simp [process_reminder_record, hours_waiting_opt, cooldown_skip_opt, TsStr.toBool,
          TsStr.fromiso, reminder_due_spec, hours_waiting_spec, hts', hlr', h1,
          RecordOutcome.isDispatch, not_le.mpr h1]
      · cases send with
        | exn =>
          simp [process_reminder_record, hours_waiting_opt, cooldown_skip_opt, TsStr.toBool,
            TsStr.fromiso, reminder_due_spec, hours_waiting_spec, hts', hlr', h1,
            RecordOutcome.isDispatch, not_lt.mp h1]
        | status code =>
          by_cases hc : code = 204 <;>
            simp [process_reminder_record, hours_waiting_opt, cooldown_skip_opt, TsStr.toBool,
              TsStr.fromiso, reminder_due_spec, hours_waiting_spec, hts', hlr', h1, hc,
              RecordOutcome.isDispatch, not_lt.mp h1]
    | valid s =>
      by_cases h1 : ((now : Rat) - (t : Rat)) / 3600 < cfg.reminderThresholdHours
      · simp [process_reminder_record, hours_waiting_opt, cooldown_skip_opt, TsStr.toBool,
          TsStr.fromiso, reminder_due_spec, hours_waiting_spec, hts', hlr', h1,
          RecordOutcome.isDispatch, not_le.mpr h1]
      · by_cases h2 : ((now : Rat) - (s : Rat)) / 3600 < cfg.reminderThresholdHours
        · simp [process_reminder_record, hours_waiting_opt, cooldown_skip_opt, TsStr.toBool,
            TsStr.fromiso, reminder_due_spec, hours_waiting_spec, hts', hlr', h1, h2,
            RecordOutcome.isDispatch, not_le.mpr h2]
        · cases send with
          | exn =>
            simp [process_reminder_record, hours_waiting_opt, cooldown_skip_opt, TsStr.toBool,
              TsStr.fromiso, reminder_due_spec, hours_waiting_spec, hts', hlr', h1, h2,
              RecordOutcome.isDispatch, not_lt.mp h1, not_lt.mp h2]
          | status code =>
            by_cases hc : code = 204 <;>
              simp [process_reminder_record, hours_waiting_opt, cooldown_skip_opt, TsStr.toBool,
                TsStr.fromiso, reminder_due_spec, hours_waiting_spec, hts', hlr', h1, h2, hc,
                RecordOutcome.isDispatch, not_lt.mp h1, not_lt.mp h2]

/-- Witness for C3: a turn 10 hours old, never reminded, with the default
2-hour threshold, is dispatched. -/
theorem c3_dispatch_iff_due_witness :
    ((process_reminder_record ⟨⟨false, 0, 7, -5⟩, 2⟩ 36000 (fun _ => none)
        (SendResult.status 204) true
        ⟨"g", "g", "", "bob", "42", "3", TsStr.valid 0, TsStr.empty, 0⟩).isDispatch = true ↔
      reminder_due_spec ⟨⟨false, 0, 7, -5⟩, 2⟩ 36000
        ⟨"g", "g", "", "bob", "42", "3", TsStr.valid 0, TsStr.empty, 0⟩) ∧
    ((process_reminder_record ⟨⟨false, 0, 7, -5⟩, 2⟩ 36000 (fun _ => none)
        (SendResult.status 204) true
        ⟨"g", "g", "", "bob", "42", "3", TsStr.valid 0, TsStr.empty, 0⟩).isDispatch = false →
      storeWriteOf (process_reminder_record ⟨⟨false, 0, 7, -5⟩, 2⟩ 36000 (fun _ => none)
        (SendResult.status 204) true
        ⟨"g", "g", "", "bob", "42", "3", TsStr.valid 0, TsStr.empty, 0⟩) = none) :=
  c3_dispatch_iff_due ⟨⟨false, 0, 7, -5⟩, 2⟩ 36000 (fun _ => none)
    (SendResult.status 204) true
    ⟨"g", "g", "", "bob", "42", "3", TsStr.valid 0, TsStr.empty, 0⟩
    (by decide) (by decide)

/-- Claim C4: the Reminder Evaluator never dispatches during an invocation
with blackout enabled and the local hour (hour of UTC now + gmtOffset hours)
inside `[startHour, endHour)`, or inside the wrapped interval when
`startHour > endHour`; when blackout is disabled this check suppresses
nothing. -/
theorem c4_blackout_suppression (cfg : Config) (now : Int)
    (user_mapping : String → Option String) (sendOf : Nat → SendResult)
    (upsertOkOf : Nat → Bool) (entities : List TurnRecord) :
    (is_blackout_period cfg now = true ↔
      cfg.blackout.enabled = true ∧ spec_blackout_window cfg.blackout now) ∧
    (cfg.blackout.enabled = true → spec_blackout_window cfg.blackout now →
      send_turn_reminders cfg now user_mapping sendOf upsertOkOf entities = []) ∧
    (cfg.blackout.enabled = false →
      send_turn_reminders cfg now user_mapping sendOf upsertOkOf entities =
        process_reminder_list cfg now user_mapping sendOf upsertOkOf 0 entities) := by
  have hiff : is_blackout_period cfg now = true ↔
      cfg.blackout.enabled = true ∧ spec_blackout_window cfg.blackout now := by
    unfold is_blackout_period spec_blackout_window
    cases hE : cfg.blackout.enabled with
    | false => simp
    | true =>
      by_cases hse : cfg.blackout.startHour ≤ cfg.blackout.endHour
      · simp [hse, not_lt.mpr hse]
      · simp [hse, not_le.mp hse]
  refine ⟨hiff, fun hE hW => ?_, fun hE => ?_⟩
  · simp [send_turn_reminders, hiff.mpr ⟨hE, hW⟩]
  · simp [send_turn_reminders, is_blackout_period, hE]

/-- Witness for C4: blackout 22–6 at GMT−5, UTC 04:00 (local hour 23) —
a due record is nevertheless not processed at all. -/
theorem c4_blackout_suppression_witness :
    send_turn_reminders ⟨⟨true, 22, 6, -5⟩, 2⟩ 14400 (fun _ => none)
      (fun _ => SendResult.status 204) (fun _ => true)
      [⟨"g", "g", "", "bob", "42", "3", TsStr.valid 0, TsStr.empty, 0⟩] = [] :=
  (c4_blackout_suppression ⟨⟨true, 22, 6, -5⟩, 2⟩ 14400 (fun _ => none)
    (fun _ => SendResult.status 204) (fun _ => true)
    [⟨"g", "g", "", "bob", "42", "3", TsStr.valid 0, TsStr.empty, 0⟩]).2.1 rfl
    (by unfold spec_blackout_window; decide)

/-- Claim C7: on a success acknowledgment (HTTP 204) the record upserted back
differs from the stored one in exactly two fields — `lastReminderAt` becomes
now and `reminderCount` its previous value plus one — and every other field
is unchanged. -/
theorem c7_ack_updates_reminder_fields (cfg : Config) (now : Int)
    (user_mapping : String → Option String) (send : SendResult) (upsert_ok : Bool)
    (e : TurnRecord) (t : MessageTarget) (upd : TurnRecord) (ok : Bool)
    (h : process_reminder_record cfg now user_mapping send upsert_ok e =
      RecordOutcome.sent t upd ok) :
    upd.rowKey = e.rowKey ∧ upd.gameName = e.gameName ∧ upd.gameId = e.gameId ∧
      upd.steamUsername = e.steamUsername ∧ upd.discordUserId = e.discordUserId ∧
      upd.roundNumber = e.roundNumber ∧ upd.turnStartedAt = e.turnStartedAt ∧
      upd.lastReminderAt = TsStr.valid now ∧ upd.reminderCount = e.reminderCount + 1 := by
  unfold process_reminder_record at h
  repeat' split at h
  all_goals cases h
  all_goals simp

/-- Witness for C7: a concrete acknowledged dispatch updates only the two
reminder fields. -/
theorem c7_ack_updates_reminder_fields_witness :
    (⟨"g", "g", "", "bob", "42", "3", TsStr.valid 0, TsStr.valid 36000, 1⟩ :
        TurnRecord).rowKey =
      (⟨"g", "g", "", "bob", "42", "3", TsStr.valid 0, TsStr.empty, 0⟩ :
        TurnRecord).rowKey ∧
    (⟨"g", "g", "", "bob", "42", "3", TsStr.valid 0, TsStr.valid 36000, 1⟩ :
        TurnRecord).gameName = "g" ∧
    (⟨"g", "g", "", "bob", "42", "3", TsStr.valid 0, TsStr.valid 36000, 1⟩ :
        TurnRecord).gameId = "" ∧
    (⟨"g", "g", "", "bob", "42", "3", TsStr.valid 0, TsStr.valid 36000, 1⟩ :
        TurnRecord).steamUsername = "bob" ∧
    (⟨"g", "g", "", "bob", "42", "3", TsStr.valid 0, TsStr.valid 36000, 1⟩ :
        TurnRecord).discordUserId = "42" ∧
    (⟨"g", "g", "", "bob", "42", "3", TsStr.valid 0, TsStr.valid 36000, 1⟩ :
        TurnRecord).roundNumber = "3" ∧
    (⟨"g", "g", "", "bob", "42", "3", TsStr.valid 0, TsStr.valid 36000, 1⟩ :
        TurnRecord).turnStartedAt = TsStr.valid 0 ∧
    (⟨"g", "g", "", "bob", "42", "3", TsStr.valid 0, TsStr.valid 36000, 1⟩ :
        TurnRecord).lastReminderAt = TsStr.valid 36000 ∧
    (⟨"g", "g", "", "bob", "42", "3", TsStr.valid 0, TsStr.valid 36000, 1⟩ :
        TurnRecord).reminderCount =
      (⟨"g", "g", "", "bob", "42", "3", TsStr.valid 0, TsStr.empty, 0⟩ :
        TurnRecord).reminderCount + 1 :=
  c7_ack_updates_reminder_fields ⟨⟨false, 0, 7, -5⟩, 2⟩ 36000 (fun _ => none)
    (SendResult.status 204) true
    ⟨"g", "g", "", "bob", "42", "3", TsStr.valid 0, TsStr.empty, 0⟩
    (MessageTarget.mention "42")
    ⟨"g", "g", "", "bob", "42", "3", TsStr.valid 0, TsStr.valid 36000, 1⟩ true
    (by norm_num +decide [process_reminder_record, hours_waiting_opt, cooldown_skip_opt,
      TsStr.toBool, TsStr.fromiso, dispatch_target])

/-- Helper for C8: each position of the loop's outcome list is the processing
of the record at that position, independent of all other records. -/
theorem process_reminder_list_getElem (cfg : Config) (now : Int)
    (user_mapping : String → Option String) (sendOf : Nat → SendResult)
    (upsertOkOf : Nat → Bool) :
    ∀ (l : List TurnRecord) (k i : Nat),
      (process_reminder_list cfg now user_mapping sendOf upsertOkOf k l)[i]? =
        (l[i]?).map
          (process_reminder_record cfg now user_mapping (sendOf (k + i))
            (upsertOkOf (k + i))) := by
  intro l
  induction l with
  | nil => intro k i; simp [process_reminder_list]
  | cons e rest ih =>
    intro k i
    cases i with
    | zero => simp [process_reminder_list]
    | succ j =>
      have hk : k + (j + 1) = k + 1 + j := by omega
      simp [process_reminder_list, ih (k + 1) j, hk]

/-- Claim C8: outside a blackout, every record in the enumeration is
evaluated, each position's outcome depending only on that record and its own
send/store fate (so one record's failure cannot abort the rest), and any
failure outcome writes nothing back to the store. -/
theorem c8_failure_isolation (cfg : Config) (now : Int)
    (user_mapping : String → Option String) (sendOf : Nat → SendResult)
    (upsertOkOf : Nat → Bool) (entities : List TurnRecord)
    (hb : is_blackout_period cfg now = false) :
    (∀ i : Nat,
      (send_turn_reminders cfg now user_mapping sendOf upsertOkOf entities)[i]? =
        (entities[i]?).map
          (process_reminder_record cfg now user_mapping (sendOf i) (upsertOkOf i))) ∧
    (∀ o : RecordOutcome, o.isFailure = true → storeWriteOf o = none) := by
  constructor
  · intro i
    simp only [send_turn_reminders, hb, Bool.false_eq_true, if_false]
    simpa using
      process_reminder_list_getElem cfg now user_mapping sendOf upsertOkOf entities 0 i
  · intro o h
    cases o <;> simp_all [RecordOutcome.isFailure, storeWriteOf]

/-- Witness for C8: a one-record invocation whose send raises still evaluates
that record, and the failure writes nothing. -/
theorem c8_failure_isolation_witness :
    (send_turn_reminders ⟨⟨false, 0, 7, -5⟩, 2⟩ 36000 (fun _ => none)
        (fun _ => SendResult.exn) (fun _ => true)
        [⟨"g", "g", "", "bob", "42", "3", TsStr.valid 0, TsStr.empty, 0⟩])[0]? =
      (([⟨"g", "g", "", "bob", "42", "3", TsStr.valid 0, TsStr.empty, 0⟩] :
          List TurnRecord)[0]?).map
        (process_reminder_record ⟨⟨false, 0, 7, -5⟩, 2⟩ 36000 (fun _ => none)
          SendResult.exn true) :=
  (c8_failure_isolation ⟨⟨false, 0, 7, -5⟩, 2⟩ 36000 (fun _ => none)
    (fun _ => SendResult.exn) (fun _ => true)
    [⟨"g", "g", "", "bob", "42", "3", TsStr.valid 0, TsStr.empty, 0⟩] rfl).1 0

/-- Helper for C10: every dispatch outcome carries the target computed by
`dispatch_target`. -/
theorem process_targetOf_eq (cfg : Config) (now : Int)
    (user_mapping : String → Option String) (send : SendResult) (upsert_ok : Bool)
    (e : TurnRecord) (t : MessageTarget)
    (h : (process_reminder_record cfg now user_mapping send upsert_ok e).targetOf = some t) :
    t = dispatch_target user_mapping e := by
  unfold process_reminder_record at h
  repeat' split at h
  all_goals simp [RecordOutcome.targetOf] at h
  all_goals exact h.symm

/-- Claim C10: when the stored chat identity is empty, the evaluator redoes
the identity-mapping lookup for the record's player at dispatch time and
mentions the freshly found identity; the broadcast fallback naming the raw
player is used only when that second lookup also comes up empty.  Every
dispatch outcome of the loop body uses exactly this target. -/
theorem c10_fresh_lookup_fallback (user_mapping : String → Option String)
    (e : TurnRecord) (h : e.discordUserId = "") :
    ((user_mapping e.steamUsername).getD "" ≠ "" →
      dispatch_target user_mapping e =
        MessageTarget.mention ((user_mapping e.steamUsername).getD "")) ∧
    ((user_mapping e.steamUsername).getD "" = "" →
      dispatch_target user_mapping e = MessageTarget.broadcast e.steamUsername) ∧
    ∀ (cfg : Config) (now : Int) (send : SendResult) (uo : Bool) (t : MessageTarget),
      (process_reminder_record cfg now user_mapping send uo e).targetOf = some t →
        t = dispatch_target user_mapping e := by
  refine ⟨fun hf => ?_, fun hf => ?_, fun cfg now send uo t ht =>
    process_targetOf_eq cfg now user_mapping send uo e t ht⟩
  · simp [dispatch_target, h, hf]
  · simp [dispatch_target, h, hf]

/-- Witness for C10: stored identity empty, fresh lookup finds `99`, so the
dispatch mentions `99` rather than broadcasting. -/
theorem c10_fresh_lookup_fallback_witness :
    dispatch_target (fun s => if s = "bob" then some "99" else none)
      ⟨"g", "g", "", "bob", "", "3", TsStr.valid 0, TsStr.empty, 0⟩ =
      MessageTarget.mention
        (((fun s => if s = "bob" then some "99" else none) "bob").getD "") :=
  (c10_fresh_lookup_fallback (fun s => if s = "bob" then some "99" else none)
    ⟨"g", "g", "", "bob", "", "3", TsStr.valid 0, TsStr.empty, 0⟩ rfl).1 (by decide)

/-- Counterexample for C9: a non-empty malformed `turnStartedAt` makes the
Reminder Evaluator's hours-waiting computation raise (`fromisoformat` yields
no value, so there is no fallback to 0); the exception reaches the per-record
handler, i.e. the outcome is `parseError`, not a threshold skip computed from
hours-waiting 0. -/
theorem c9_no_evaluator_fallback_counterexample :
    hours_waiting_opt 0 TsStr.malformed = none ∧
    process_reminder_record ⟨⟨false, 0, 7, -5⟩, 2⟩ 0 (fun _ => none)
      (SendResult.status 204) true
      ⟨"g", "g", "", "bob", "42", "3", TsStr.malformed, TsStr.empty, 0⟩ =
      RecordOutcome.parseError ∧
    RecordOutcome.parseError ≠ RecordOutcome.skippedThreshold :=
  ⟨rfl, rfl, by decide⟩

/-- Claim C9 as amended: the Turn Tracker falls back to the unknown sentinel
for a missing or malformed start timestamp, and the Reminder Evaluator falls
back to hours-waiting 0 only for an empty start timestamp; a malformed
non-empty start timestamp instead raises a parse error that the per-record
handler catches, skipping the record with no store write. -/
theorem c9_fallback_behaviour (now : Int)
    (game_id game_name previous_player previous_round : String) (ts : TsStr)
    (cfg : Config) (user_mapping : String → Option String) (send : SendResult)
    (upsert_ok : Bool) (e : TurnRecord) :
    ((ts = TsStr.empty ∨ ts = TsStr.malformed) →
      (record_turn_completion now game_id game_name previous_player previous_round
        ts).durationSeconds = -1) ∧
    (e.turnStartedAt = TsStr.empty → hours_waiting_opt now e.turnStartedAt = some 0) ∧
    (e.turnStartedAt = TsStr.malformed →
      process_reminder_record cfg now user_mapping send upsert_ok e =
          RecordOutcome.parseError ∧
        storeWriteOf (process_reminder_record cfg now user_mapping send upsert_ok e) =
          none) := by
  refine ⟨?_, ?_, ?_⟩
  · rintro (rfl | rfl) <;> rfl
  · intro hts; rw [hts]; rfl
  · intro hts
    have hp : process_reminder_record cfg now user_mapping send upsert_ok e =
        RecordOutcome.parseError := by
      unfold process_reminder_record
      rw [hts]
      rfl
    exact ⟨hp, by rw [hp]; rfl⟩

/-- Witness for the amended C9 at concrete inputs: sentinel in the tracker,
zero fallback for an empty timestamp, parse error for a malformed one. -/
theorem c9_fallback_behaviour_witness :
    (record_turn_completion 100 "" "Alpha" "bob" "1" TsStr.malformed).durationSeconds = -1 ∧
    hours_waiting_opt 100 TsStr.empty = some 0 ∧
    (process_reminder_record ⟨⟨false, 0, 7, -5⟩, 2⟩ 100 (fun _ => none)
        (SendResult.status 204) true
        ⟨"g", "g", "", "bob", "42", "3", TsStr.malformed, TsStr.empty, 0⟩ =
        RecordOutcome.parseError ∧
      storeWriteOf (process_reminder_record ⟨⟨false, 0, 7, -5⟩, 2⟩ 100 (fun _ => none)
        (SendResult.status 204) true
        ⟨"g", "g", "", "bob", "42", "3", TsStr.malformed, TsStr.empty, 0⟩) = none) :=
  ⟨(c9_fallback_behaviour 100 "" "Alpha" "bob" "1" TsStr.malformed
      ⟨⟨false, 0, 7, -5⟩, 2⟩ (fun _ => none) (SendResult.status 204) true
      ⟨"g", "g", "", "bob", "42", "3", TsStr.malformed, TsStr.empty, 0⟩).1 (Or.inr rfl),
   (c9_fallback_behaviour 100 "" "Alpha" "bob" "1" TsStr.empty
      ⟨⟨false, 0, 7, -5⟩, 2⟩ (fun _ => none) (SendResult.status 204) true
      ⟨"g", "g", "", "bob", "42", "3", TsStr.empty, TsStr.empty, 0⟩).2.1 rfl,
   (c9_fallback_behaviour 100 "" "Alpha" "bob" "1" TsStr.malformed
      ⟨⟨false, 0, 7, -5⟩, 2⟩ (fun _ => none) (SendResult.status 204) true
      ⟨"g", "g", "", "bob", "42", "3", TsStr.malformed, TsStr.empty, 0⟩).2.2 rfl⟩

end Pydt
